import Mathlib

/-!
Verification of the ngx-renamer core (Python) against its specification.

Python strings are modelled as `List Char`: a sequence of Unicode code
points, which matches Python's `len` and slicing semantics (both count
code points, not bytes).  Values produced by `json.loads` or
`yaml.safe_load` are modelled by the inductive type `JValue`; a raw
provider response that is not valid JSON is modelled as a `none` input
to the response normalizer (Python's `json.loads` raising
`json.JSONDecodeError`, which the normalizer catches).  Python code
that can raise an uncaught exception is modelled with `Except`, where
`Except.error` marks the raised exception.
-/

/-- Convert a Lean string literal to the `List Char` model of a Python string. -/
def pstr (s : String) : List Char :=
  s.data

/-- Boolean test that `pat` is a prefix of `s` (Python `str.startswith`,
also the per-position test used by `str.replace`). -/
def startsWithL : List Char → List Char → Bool
  | [], _ => true
  | _ :: _, [] => false
  | p :: ps, c :: cs => p == c && startsWithL ps cs

/-- Boolean test that `pat` occurs as a contiguous substring of `s`
(Python's `pat in s`). -/
def containsSub (pat : List Char) : List Char → Bool
  | [] => pat.isEmpty
  | c :: cs => startsWithL pat (c :: cs) || containsSub pat cs

/-- Propositional form of substring occurrence. -/
def Occurs (pat s : List Char) : Prop :=
  ∃ pre suf, s = pre ++ pat ++ suf

/-- Embedding of Python `s.replace(pat, rep)`: replace every
non-overlapping occurrence of `pat` in `s` by `rep`, scanning left to
right.  The sole call site in the source replaces the literal
`{current_date}`, so `pat` is never empty there; for an empty `pat`
this definition returns `s` unchanged (Python would instead interleave
`rep` at every position). -/
def replaceAll (pat rep : List Char) : List Char → List Char
  | [] => []
  | c :: cs =>
    if h : startsWithL pat (c :: cs) = true ∧ pat ≠ [] then
      rep ++ replaceAll pat rep ((c :: cs).drop pat.length)
    else
      c :: replaceAll pat rep cs
termination_by s => s.length
decreasing_by
  · simp only [List.length_drop, List.length_cons]
    have hlen : 1 ≤ pat.length := by
      cases hp : pat with
      | nil => exact absurd hp h.2
      | cons a as => simp
    omega
  · simp

/-- JSON / YAML values as decoded by Python (`json.loads`,
`yaml.safe_load`).  Numbers are modelled as integers, which covers
every value the claims touch; object fields are an association list
whose first binding for a key is the one `dict` lookup finds. -/
inductive JValue where
  | null
  | bool (b : Bool)
  | num (n : Int)
  | str (s : List Char)
  | arr (elems : List JValue)
  | obj (fields : List (String × JValue))

/-- Python truthiness (`if x:`) of a decoded value: `None`, `False`,
`0`, and empty strings / lists / dicts are falsy. -/
def JValue.truthy : JValue → Bool
  | .null => false
  | .bool b => b
  | .num n => n != 0
  | .str s => !s.isEmpty
  | .arr xs => !xs.isEmpty
  | .obj fs => !fs.isEmpty

/-- Python `len(x)`: defined for strings, lists and dicts; `none`
models the `TypeError` raised on other values. -/
def JValue.pyLen : JValue → Option Nat
  | .str s => some s.length
  | .arr xs => some xs.length
  | .obj fs => some fs.length
  | _ => none

/-- Python slicing `x[:n]`: defined for strings and lists; `none`
models the `TypeError` raised when slicing any other value. -/
def JValue.pySlice : JValue → Nat → Option JValue
  | .str s, n => some (.str (s.take n))
  | .arr xs, n => some (.arr (xs.take n))
  | _, _ => none

/-- Python `d.get(key, dflt)` on a decoded JSON object. -/
def dictGet (fields : List (String × JValue)) (key : String) (dflt : JValue) : JValue :=
  (fields.lookup key).getD dflt

/-- True exactly when the value is a decoded JSON object (Python
`isinstance(x, dict)`). -/
def JValue.isObj : JValue → Bool
  | .obj _ => true
  | _ => false

/-- True exactly when an optional looked-up value is a decoded JSON
object; used to state the `"key" in settings and
isinstance(settings["key"], dict)` test of the model resolvers. -/
def isObjOpt : Option JValue → Bool
  | some (.obj _) => true
  | _ => false

/-- Title values the normalizer rejects with `None`: `null`, booleans
and numbers (falsy, or unsized so that `len(title)` raises the caught
`TypeError`), the empty string, and empty containers (falsy). -/
def titleRejected : JValue → Bool
  | .null => true
  | .bool _ => true
  | .num _ => true
  | .str s => s.isEmpty
  | .arr xs => xs.isEmpty
  | .obj fs => fs.isEmpty

/-- Paperless NGX maximum title length (src/modules/constants.py). -/
def MAX_TITLE_LENGTH : Nat := 127

/-- Embedding of `BaseLLMProvider._parse_structured_response`
(src/modules/base_llm_provider.py, lines 84-127).  The input is the
result of `json.loads` on the raw content: `none` when the raw string
is not valid JSON (the `json.JSONDecodeError` handler returns `None`),
otherwise the decoded value.  The trailing `except Exception` handler
turns the `AttributeError` of `.get` on a non-dict and the `TypeError`
of `len`/slicing on unsized values into `None` as well, so the
function is total. -/
def BaseLLMProvider.parse_structured_response (input : Option JValue) : Option JValue :=
  match input with
  | none => none
  | some data =>
    match data with
    | .obj fields =>
      let title := dictGet fields "title" (.str [])
      if title.truthy then
        match title.pyLen with
        | none => none
        | some len =>
          if MAX_TITLE_LENGTH < len then
            match title.pySlice MAX_TITLE_LENGTH with
            | none => none
            | some t => some t
          else some title
      else none
    | _ => none

/-- Embedding of `OpenAITitles._parse_structured_response`
(src/modules/openai_titles.py, lines 99-135), which overrides the base
method with the same logic, writing the limit `127` literally instead
of through `MAX_TITLE_LENGTH`. -/
def OpenAITitles.parse_structured_response (input : Option JValue) : Option JValue :=
  match input with
  | none => none
  | some data =>
    match data with
    | .obj fields =>
      let title := dictGet fields "title" (.str [])
      if title.truthy then
        match title.pyLen with
        | none => none
        | some len =>
          if 127 < len then
            match title.pySlice 127 with
            | none => none
            | some t => some t
          else some title
      else none
    | _ => none

/-- Coerce a decoded value to a Python string; `Except.error` models
the `TypeError` / `AttributeError` raised when a prompt field that the
code concatenates or calls `.replace` on is not a string. -/
def asStr : JValue → Except Unit (List Char)
  | .str s => .ok s
  | _ => .error ()

/-- The literal placeholder replaced inside `prompt.with_date`. -/
def currentDatePlaceholder : List Char :=
  pstr "{current_date}"

/-- Digit character for `n % 10`. -/
def digitChar (n : Nat) : Char :=
  Char.ofNat (48 + n % 10)

/-- Two-digit zero-padded decimal (strftime `%m`, `%d`). -/
def pad2 (n : Nat) : List Char :=
  [digitChar (n / 10), digitChar n]

/-- Four-digit zero-padded decimal (strftime `%Y` for years below 10000). -/
def pad4 (n : Nat) : List Char :=
  [digitChar (n / 1000), digitChar (n / 100), digitChar (n / 10), digitChar n]

/-- The separator used by the `YYYY-MM-DD` date format. -/
def hyphenChar : Char := '-'

/-- Embedding of `datetime.today().strftime("%Y-%m-%d")`: the current
date rendered as `YYYY-MM-DD`. -/
def formatDate (y m d : Nat) : List Char :=
  pad4 y ++ [hyphenChar] ++ pad2 m ++ [hyphenChar] ++ pad2 d

/-- Embedding of `BaseLLMProvider._build_prompt`
(src/modules/base_llm_provider.py, lines 44-82).  `today` stands for
the formatted current date (the method's only impurity), `text` for
the document content.  `Except.error` marks an uncaught Python
exception: `.get` on a truthy non-dict settings value raises
`AttributeError`, and concatenating or `.replace`-ing a non-string
prompt field raises `TypeError` / `AttributeError`. -/
def BaseLLMProvider.build_prompt (settings : Option JValue) (today text : List Char) :
    Except Unit (Option (List Char)) :=
  match settings with
  | none => .ok none
  | some s =>
    if s.truthy then
      match s with
      | .obj kvs =>
        let withDate := dictGet kvs "with_date" (.bool false)
        let settingPrompt := dictGet kvs "prompt" .null
        if settingPrompt.truthy then
          match settingPrompt with
          | .obj pkvs =>
            match asStr (dictGet pkvs "main" (.str [])) with
            | .error e => .error e
            | .ok mainS =>
              match
                (if withDate.truthy then
                  match asStr (dictGet pkvs "with_date" (.str [])) with
                  | .error e => .error e
                  | .ok wdS => .ok (replaceAll currentDatePlaceholder today wdS)
                else asStr (dictGet pkvs "no_date" (.str []))) with
              | .error e => .error e
              | .ok dateS =>
                match asStr (dictGet pkvs "pre_content" (.str [])),
                      asStr (dictGet pkvs "post_content" (.str [])) with
                | .ok preS, .ok postS =>
                  .ok (some (mainS ++ dateS ++ preS ++ text ++ postS))
                | .error e, _ => .error e
                | .ok _, .error e => .error e
          | _ => .error ()
        else .ok none
      | _ => .error ()
    else .ok none

/-- Embedding of `OpenAITitles.generate_title_from_text`
(src/modules/openai_titles.py, lines 79-97).  `api` abstracts
`__call_openai_api` together with the envelope access
`result.choices[0].message.content`: `none` models a transport or
remote-API error (the method returns `None`), `some c` a successful
call whose structured content JSON-decodes to `c` (`c = none` when the
content is not valid JSON).  The Bool in the result records whether
the remote API was contacted. -/
def OpenAITitles.generate_title_from_text (settings : Option JValue) (today text : List Char)
    (api : List Char → Option (Option JValue)) : Except Unit (Option JValue × Bool) :=
  match BaseLLMProvider.build_prompt settings today text with
  | .error e => .error e
  | .ok none => .ok (none, false)
  | .ok (some prompt) =>
    if prompt.isEmpty then .ok (none, false)
    else
      match api prompt with
      | none => .ok (none, true)
      | some content => .ok (OpenAITitles.parse_structured_response content, true)

/-- Embedding of Python `str.lower()`: lower-case every character.
`Char.toLower` covers the basic latin letters, which is all the
provider names use. -/
def pyLower (s : String) : String :=
  String.mk (s.data.map Char.toLower)

/-- The provider classes registered in `modules/providers/__init__.py`
(lines 55-59): only `ollama` and `openai` are registered. -/
inductive ProviderClass where
  | ollama
  | openai
deriving DecidableEq

/-- The `_PROVIDER_REGISTRY` contents after module initialisation
(src/modules/providers/__init__.py, lines 58-59). -/
def PROVIDER_REGISTRY : List (String × ProviderClass) :=
  [("ollama", .ollama), ("openai", .openai)]

/-- Lexicographic order on code-point sequences, the order Python
`sorted` uses on strings. -/
def lexLe : List Char → List Char → Bool
  | [], _ => true
  | _ :: _, [] => false
  | x :: xs, y :: ys =>
    if x.toNat < y.toNat then true
    else if x.toNat = y.toNat then lexLe xs ys
    else false

/-- String comparison used by the `sorted` embedding. -/
def strLe (a b : String) : Bool :=
  lexLe a.data b.data

/-- Insert into a sorted list of strings (helper for Python `sorted`). -/
def insertSorted (s : String) : List String → List String
  | [] => [s]
  | t :: ts => if strLe s t then s :: t :: ts else t :: insertSorted s ts

/-- Embedding of Python `sorted` on a list of strings (insertion sort). -/
def sortStrings : List String → List String
  | [] => []
  | s :: ss => insertSorted s (sortStrings ss)

/-- Embedding of `", ".join(...)`. -/
def joinComma : List String → String
  | [] => ""
  | [s] => s
  | s :: t :: ts => s ++ ", " ++ joinComma (t :: ts)

/-- Embedding of `get_provider_class`
(src/modules/providers/__init__.py, lines 20-39): look the lowercased
name up in the registry; on a miss raise `ValueError` listing the
registered provider names, sorted and comma-joined. -/
def get_provider_class (name : String) : Except (List Char) ProviderClass :=
  match PROVIDER_REGISTRY.lookup (pyLower name) with
  | some c => .ok c
  | none =>
      .error (pstr ("Unknown LLM provider \x27" ++ name ++ "\x27. "
        ++ "Available providers: "
        ++ joinComma (sortStrings (PROVIDER_REGISTRY.map Prod.fst))))

/-- Python `if not x:` applied to an optional string (absent and empty
are falsy). -/
def optStrTruthy : Option String → Bool
  | none => false
  | some s => !s.isEmpty

/-- A provider instance as produced by the factory.  Only the OpenAI
branch can currently construct one (see
`LLMFactory.create_provider`). -/
inductive ProviderInstance where
  | openaiInst (apiKey : String) (settingsFile : String)

/-- The `TypeError` raised when `LLMFactory._create_ollama_provider`
(src/modules/llm_factory.py, line 91) calls
`provider_class(base_url, api_key, settings_file)` with three
positional arguments although `OllamaTitles.__init__`
(src/modules/ollama_titles.py, line 29) accepts only
`(ollama_base_url, settings_file)`. -/
def ollamaConstructorTypeError : List Char :=
  pstr "TypeError: OllamaTitles.__init__() takes from 2 to 3 positional arguments but 4 were given"

/-- Embedding of `LLMFactory.create_provider`
(src/modules/llm_factory.py, lines 16-91) composed with its two
private helpers.  The error strings are the source's `ValueError`
messages; the Ollama construction path raises `TypeError` because of
the constructor arity mismatch documented at
`ollamaConstructorTypeError`. -/
def LLMFactory.create_provider (provider_name : String)
    (openai_api_key ollama_base_url ollama_api_key : Option String)
    (settings_file : String) : Except (List Char) ProviderInstance :=
  let provider := pyLower provider_name
  match get_provider_class provider with
  | .error e => .error e
  | .ok _ =>
    if provider = "openai" then
      if optStrTruthy openai_api_key then
        .ok (.openaiInst (openai_api_key.getD "") settings_file)
      else
        .error (pstr ("OPENAI_API_KEY environment variable is required when using "
          ++ "OpenAI provider. Either set OPENAI_API_KEY or change "
          ++ "llm_provider to \x27ollama\x27 in settings.yaml"))
    else if provider = "ollama" then
      if optStrTruthy ollama_base_url then
        .error ollamaConstructorTypeError
      else
        .error (pstr ("OLLAMA_BASE_URL environment variable is required when using "
          ++ "Ollama provider. Either set OLLAMA_BASE_URL or change "
          ++ "llm_provider to \x27openai\x27 in settings.yaml"))
    else
      .error (pstr ("Unhandled provider: " ++ provider))

/-- Embedding of the model resolution in `OpenAITitles.__call_openai_api`
(src/modules/openai_titles.py, lines 47-55): the nested
`settings["openai"]["model"]` when the `openai` sub-object is a dict,
else the flat legacy `settings["openai_model"]`, with the hardcoded
default `gpt-4o-mini`. -/
def OpenAITitles.resolveModel (kvs : List (String × JValue)) : JValue :=
  match kvs.lookup "openai" with
  | some (.obj okvs) => dictGet okvs "model" (.str (pstr "gpt-4o-mini"))
  | _ => dictGet kvs "openai_model" (.str (pstr "gpt-4o-mini"))

/-- Embedding of the model resolution in `OllamaTitles.__call_ollama_api`
(src/modules/ollama_titles.py, lines 50-55): the nested
`settings["ollama"]["model"]` when the `ollama` sub-object is a dict,
else the hardcoded default `gpt-oss:latest` directly — this variant
consults no flat legacy key. -/
def OllamaTitles.resolveModel (kvs : List (String × JValue)) : JValue :=
  match kvs.lookup "ollama" with
  | some (.obj okvs) => dictGet okvs "model" (.str (pstr "gpt-oss:latest"))
  | _ => .str (pstr "gpt-oss:latest")

/-- Embedding of the model resolution in `ClaudeTitles._call_claude_api`
(src/modules/claude_titles.py, lines 38-42): nested
`settings["claude"]["model"]`, else the flat legacy
`settings["claude_model"]`, with the default from `DEFAULT_MODELS`. -/
def ClaudeTitles.resolveModel (kvs : List (String × JValue)) : JValue :=
  match kvs.lookup "claude" with
  | some (.obj okvs) => dictGet okvs "model" (.str (pstr "claude-3-5-sonnet-20241022"))
  | _ => dictGet kvs "claude_model" (.str (pstr "claude-3-5-sonnet-20241022"))

/-- Outcome of one `requests.get` / `requests.patch` call: an HTTP
response with a status code and a JSON body, or a raised exception
(network error such as `requests.exceptions.ConnectionError`). -/
inductive HttpOutcome where
  | resp (status : Nat) (body : JValue)
  | exn (msg : List Char)

/-- Which collaborators the orchestrator invoked during one run. -/
structure OrchTrace where
  llmCalled : Bool
  patchCalled : Bool
deriving DecidableEq

/-- Embedding of `PaperlessAITitles.__get_document_details`
(src/modules/paperless_ai_titles.py, lines 82-99): a 200 response
yields the decoded body, any other status prints and yields `None`;
the method wraps `requests.get` in no handler, so a raised network
error propagates (`Except.error`). -/
def PaperlessAITitles.get_document_details (fetch : HttpOutcome) :
    Except (List Char) (Option JValue) :=
  match fetch with
  | .exn e => .error e
  | .resp status body => if status = 200 then .ok (some body) else .ok none

/-- Embedding of `PaperlessAITitles.generate_and_update_title`
(src/modules/paperless_ai_titles.py, lines 127-143) together with
`__update_document_title` (lines 102-124).  `fetch` is the outcome of
the GET, `gen` abstracts `self.ai.generate_title_from_text` (applied
to the value of the document's `content` field, `""` when absent), and
`patch` is the outcome of the PATCH when one is issued.  The PATCH
prints on any status and raises only on a network error; the result
records which collaborators were invoked.  `document_details["title"]`
raises `KeyError` when the fetched object has no `title` key and
`TypeError` when the truthy body is not a dict. -/
def PaperlessAITitles.generate_and_update_title (fetch : HttpOutcome)
    (gen : JValue → Option (List Char)) (patch : HttpOutcome) :
    Except (List Char) OrchTrace :=
  match PaperlessAITitles.get_document_details fetch with
  | .error e => .error e
  | .ok none => .ok ⟨false, false⟩
  | .ok (some doc) =>
    if doc.truthy then
      match doc with
      | .obj fields =>
        match fields.lookup "title" with
        | none => .error (pstr "KeyError: \x27title\x27")
        | some _ =>
          match gen (dictGet fields "content" (.str [])) with
          | none => .ok ⟨true, false⟩
          | some newTitle =>
            if newTitle.isEmpty then .ok ⟨true, false⟩
            else
              match patch with
              | .exn e => .error e
              | .resp _ _ => .ok ⟨true, true⟩
      | _ => .error (pstr "TypeError: document_details is not a dict")
    else .ok ⟨false, false⟩

/-- A provider stand-in that always fails to generate a title. -/
def genNone : JValue → Option (List Char) :=
  fun _ => none

/-- A provider stand-in that returns a fixed generated title. -/
def genFixed : JValue → Option (List Char) :=
  fun _ => some (pstr "Amazon - AWS Monthly Invoice")

theorem startsWithL_iff (pat s : List Char) :
    startsWithL pat s = true ↔ ∃ t, s = pat ++ t := by
  induction pat generalizing s with
  | nil =>
    simp only [startsWithL, List.nil_append]
    exact ⟨fun _ => ⟨s, rfl⟩, fun _ => trivial⟩
  | cons p ps ih =>
    cases s with
    | nil =>
      simp only [startsWithL]
      constructor
      · intro h; exact absurd h (by simp)
      · rintro ⟨t, ht⟩; exact absurd ht (by simp)
    | cons c cs =>
      simp only [startsWithL, Bool.and_eq_true, beq_iff_eq]
      constructor
      · rintro ⟨rfl, h⟩
        obtain ⟨t, rfl⟩ := (ih cs).mp h
        exact ⟨t, rfl⟩
      · rintro ⟨t, ht⟩
        injection ht with h1 h2
        exact ⟨h1.symm, (ih cs).mpr ⟨t, h2⟩⟩

theorem occurs_cons_iff (pat : List Char) (c : Char) (cs : List Char) :
    Occurs pat (c :: cs) ↔ (∃ t, c :: cs = pat ++ t) ∨ Occurs pat cs := by
  constructor
  · rintro ⟨pre, suf, heq⟩
    cases pre with
    | nil => exact Or.inl ⟨suf, by simpa using heq⟩
    | cons x xs =>
      right
      injection heq with h1 h2
      exact ⟨xs, suf, h2⟩
  · rintro (⟨t, ht⟩ | ⟨pre, suf, heq⟩)
    · exact ⟨[], t, by simpa using ht⟩
    · exact ⟨c :: pre, suf, by simp [heq]⟩

theorem occurs_nil_eq (pat : List Char) (h : Occurs pat []) : pat = [] := by
  obtain ⟨pre, suf, heq⟩ := h
  have := heq.symm
  simp only [List.append_eq_nil] at this
  exact this.1.2

theorem containsSub_iff_occurs (pat s : List Char) :
    containsSub pat s = true ↔ Occurs pat s := by
  induction s with
  | nil =>
    simp only [containsSub]
    constructor
    · intro h
      have : pat = [] := by simpa [List.isEmpty_iff] using h
      exact ⟨[], [], by simp [this]⟩
    · intro h
      simp [List.isEmpty_iff, occurs_nil_eq pat h]
  | cons c cs ih =>
    simp only [containsSub, Bool.or_eq_true, occurs_cons_iff, startsWithL_iff, ih]

theorem occurs_append_of_right (pat a b : List Char) (h : Occurs pat b) :
    Occurs pat (a ++ b) := by
  obtain ⟨pre, suf, rfl⟩ := h
  exact ⟨a ++ pre, suf, by simp⟩

theorem occurs_append_cases (pat a b : List Char) (hpat : pat ≠ [])
    (h : Occurs pat (a ++ b)) :
    (∃ c, c ∈ pat ∧ c ∈ a) ∨ Occurs pat b := by
  induction a with
  | nil => exact Or.inr (by simpa using h)
  | cons x a' ih =>
    rw [List.cons_append, occurs_cons_iff] at h
    rcases h with ⟨t, ht⟩ | h'
    · cases pat with
      | nil => exact absurd rfl hpat
      | cons y ps =>
        injection ht with h1 _
        exact Or.inl ⟨x, by simp [h1], by simp⟩
    · rcases ih h' with ⟨c, hcp, hca⟩ | hb
      · exact Or.inl ⟨c, hcp, by simp [hca]⟩
      · exact Or.inr hb

theorem replaceAll_nil (pat rep : List Char) : replaceAll pat rep [] = [] := by
  simp [replaceAll]

theorem replaceAll_cons_pos (pat rep : List Char) (c : Char) (cs : List Char)
    (h1 : startsWithL pat (c :: cs) = true) (h2 : pat ≠ []) :
    replaceAll pat rep (c :: cs) =
      rep ++ replaceAll pat rep ((c :: cs).drop pat.length) := by
  rw [replaceAll]
  rw [dif_pos ⟨h1, h2⟩]

theorem replaceAll_cons_neg (pat rep : List Char) (c : Char) (cs : List Char)
    (h : ¬(startsWithL pat (c :: cs) = true ∧ pat ≠ [])) :
    replaceAll pat rep (c :: cs) = c :: replaceAll pat rep cs := by
  rw [replaceAll]
  rw [dif_neg h]

theorem prefix_transfer (pat rep : List Char) (hdisj : ∀ c ∈ rep, c ∉ pat)
    (hrep : rep ≠ []) (q : List Char) :
    ∀ u, (∀ x ∈ q, x ∈ pat) → (∃ t, replaceAll pat rep u = q ++ t) →
      ∃ t, u = q ++ t := by
  induction q with
  | nil => intro u _ _; exact ⟨u, rfl⟩
  | cons x q' ih =>
    rintro u hq ⟨t, ht⟩
    cases u with
    | nil =>
      rw [replaceAll_nil] at ht
      exact absurd ht (by simp)
    | cons c cs =>
      by_cases hcond : startsWithL pat (c :: cs) = true ∧ pat ≠ []
      · rw [replaceAll_cons_pos pat rep c cs hcond.1 hcond.2] at ht
        cases rep with
        | nil => exact absurd rfl hrep
        | cons r rep' =>
          rw [List.cons_append, List.cons_append] at ht
          injection ht with h1 _
          have hx : x ∈ pat := hq x (by simp)
          exact absurd (h1 ▸ hx) (hdisj r (by simp))
      · rw [replaceAll_cons_neg pat rep c cs hcond] at ht
        rw [List.cons_append] at ht
        injection ht with h1 h2
        obtain ⟨t', ht'⟩ := ih cs (fun y hy => hq y (by simp [hy])) ⟨t, h2⟩
        exact ⟨t', by rw [List.cons_append, h1, ht']⟩

theorem replaceAll_not_occurs (pat rep : List Char) (hpat : pat ≠ [])
    (hrep : rep ≠ []) (hdisj : ∀ c ∈ rep, c ∉ pat) (s : List Char) :
    ¬ Occurs pat (replaceAll pat rep s) := by
  induction s using replaceAll.induct pat rep with
  | case1 =>
    rw [replaceAll_nil]
    intro h
    exact hpat (occurs_nil_eq pat h)
  | case2 c cs hcond ih =>
    rw [replaceAll_cons_pos pat rep c cs hcond.1 hcond.2]
    intro h
    rcases occurs_append_cases pat rep _ hpat h with ⟨d, hdp, hdr⟩ | h'
    · exact hdisj d hdr hdp
    · exact ih h'
  | case3 c cs hcond ih =>
    rw [replaceAll_cons_neg pat rep c cs hcond]
    intro h
    rw [occurs_cons_iff] at h
    rcases h with ⟨t, ht⟩ | h'
    · cases pat with
      | nil => exact hpat rfl
      | cons y ps =>
        rw [List.cons_append] at ht
        injection ht with h1 h2
        obtain ⟨t'', ht''⟩ :=
          prefix_transfer (y :: ps) rep hdisj hrep ps cs
            (fun z hz => by simp [hz]) ⟨t, h2⟩
        apply hcond
        refine ⟨?_, by simp⟩
        rw [startsWithL_iff]
        exact ⟨t'', by rw [List.cons_append, h1, ht'']⟩
    · exact ih h'

theorem replaceAll_occurs_rep (pat rep : List Char) (hpat : pat ≠ [])
    (s : List Char) (hs : Occurs pat s) :
    Occurs rep (replaceAll pat rep s) := by
  induction s using replaceAll.induct pat rep with
  | case1 => exact absurd (occurs_nil_eq pat hs) hpat
  | case2 c cs hcond ih =>
    rw [replaceAll_cons_pos pat rep c cs hcond.1 hcond.2]
    exact ⟨[], replaceAll pat rep ((c :: cs).drop pat.length), by simp⟩
  | case3 c cs hcond ih =>
    rw [replaceAll_cons_neg pat rep c cs hcond]
    rw [occurs_cons_iff] at hs
    rcases hs with ⟨t, ht⟩ | h'
    · exact absurd ⟨(startsWithL_iff pat (c :: cs)).mpr ⟨t, ht⟩, hpat⟩ hcond
    · rw [occurs_cons_iff]
      exact Or.inr (ih h')

theorem char_toLower_idem (c : Char) : c.toLower.toLower = c.toLower := by
  have key : ∀ n, n < 91 → 65 ≤ n → (Char.ofNat (n + 32)).toNat = n + 32 := by decide
  by_cases h : c.toNat ≥ 65 ∧ c.toNat ≤ 90
  · have h2 := key c.toNat (by omega) (by omega)
    simp only [Char.toLower]
    rw [if_pos h, if_neg (by rw [h2]; omega)]
  · simp only [Char.toLower]
    rw [if_neg h, if_neg h]

theorem pyLower_idem (s : String) : pyLower (pyLower s) = pyLower s := by
  show String.mk ((s.data.map Char.toLower).map Char.toLower) = String.mk (s.data.map Char.toLower)
  rw [List.map_map]
  congr 1
  exact List.map_congr_left (fun c _ => char_toLower_idem c)

theorem digitChar_not_mem_placeholder (n : Nat) :
    digitChar n ∉ currentDatePlaceholder := by
  have key : ∀ r, r < 10 → Char.ofNat (48 + r) ∉ currentDatePlaceholder := by decide
  exact key (n % 10) (Nat.mod_lt n (by omega))

theorem formatDate_disjoint_placeholder (y m d : Nat) :
    ∀ c ∈ formatDate y m d, c ∉ currentDatePlaceholder := by
  intro c hc
  simp only [formatDate, pad4, pad2, List.mem_append, List.mem_cons,
    List.not_mem_nil, or_false, List.mem_singleton] at hc
  casesm* _ ∨ _
  all_goals subst_vars
  all_goals
    first
      | exact digitChar_not_mem_placeholder _
      | decide

theorem formatDate_ne_nil (y m d : Nat) : formatDate y m d ≠ [] := by
  simp [formatDate, pad4]

/-- C1: for every parse input that is a JSON object whose `title` field
is a string longer than 127 characters, the base normalizer returns
exactly the first 127 characters (counted in characters, `List Char`
prefix), the OpenAI provider's own normalizer returns the same, and
the two outputs are identical. -/
theorem C1_truncation_identical (fields : List (String × JValue)) (s : List Char)
    (hlook : fields.lookup "title" = some (.str s))
    (hlen : 127 < s.length) :
    BaseLLMProvider.parse_structured_response (some (.obj fields))
        = some (.str (s.take 127))
    ∧ OpenAITitles.parse_structured_response (some (.obj fields))
        = some (.str (s.take 127))
    ∧ BaseLLMProvider.parse_structured_response (some (.obj fields))
        = OpenAITitles.parse_structured_response (some (.obj fields)) := by
  have hne : s.isEmpty = false := by
    cases s with
    | nil => simp at hlen
    | cons a as => rfl
  have hbase : BaseLLMProvider.parse_structured_response (some (.obj fields))
      = some (.str (s.take 127)) := by
    simp [BaseLLMProvider.parse_structured_response, dictGet, hlook, hne, hlen,
      MAX_TITLE_LENGTH, JValue.truthy, JValue.pyLen, JValue.pySlice]
  have hopen : OpenAITitles.parse_structured_response (some (.obj fields))
      = some (.str (s.take 127)) := by
    simp [OpenAITitles.parse_structured_response, dictGet, hlook, hne, hlen,
      JValue.truthy, JValue.pyLen, JValue.pySlice]
  exact ⟨hbase, hopen, by rw [hbase, hopen]⟩

/-- Witness for C1 at a concrete 128-character title. -/
theorem C1_truncation_identical_witness :
    127 < (List.replicate 128 'A').length
    ∧ (BaseLLMProvider.parse_structured_response
          (some (.obj [("title", .str (List.replicate 128 'A'))]))
        = some (.str ((List.replicate 128 'A').take 127))
      ∧ OpenAITitles.parse_structured_response
          (some (.obj [("title", .str (List.replicate 128 'A'))]))
        = some (.str ((List.replicate 128 'A').take 127))
      ∧ BaseLLMProvider.parse_structured_response
          (some (.obj [("title", .str (List.replicate 128 'A'))]))
        = OpenAITitles.parse_structured_response
          (some (.obj [("title", .str (List.replicate 128 'A'))]))) :=
  ⟨by simp,
   C1_truncation_identical [("title", .str (List.replicate 128 'A'))]
     (List.replicate 128 'A') rfl (by simp)⟩

/-- C2 counterexample: the claim quantifies over all string titles of
length at most 127, which includes the empty string; on the empty
string the normalizer returns `None`, not the string unchanged. -/
theorem C2_empty_title_counterexample :
    BaseLLMProvider.parse_structured_response (some (.obj [("title", .str [])])) = none
    ∧ BaseLLMProvider.parse_structured_response (some (.obj [("title", .str [])]))
        ≠ some (.str []) :=
  ⟨rfl, fun h => Option.noConfusion h⟩

/-- C2 amended: for every JSON object whose `title` field is a
non-empty string of at most 127 characters, the normalizer returns
that string unchanged; the hypothesis covers whitespace-only titles,
which pass through unchanged. -/
theorem C2_short_title_unchanged (fields : List (String × JValue)) (s : List Char)
    (hlook : fields.lookup "title" = some (.str s))
    (hne : s ≠ [])
    (hlen : s.length ≤ 127) :
    BaseLLMProvider.parse_structured_response (some (.obj fields)) = some (.str s) := by
  have hemp : s.isEmpty = false := by
    cases s with
    | nil => exact absurd rfl hne
    | cons a as => rfl
  have hnot : ¬ (MAX_TITLE_LENGTH < s.length) := by
    simp [MAX_TITLE_LENGTH]; omega
  simp [BaseLLMProvider.parse_structured_response, dictGet, hlook, hemp, hnot,
    JValue.truthy, JValue.pyLen]

/-- Witness for C2 amended at the whitespace-only title `"   "`. -/
theorem C2_short_title_unchanged_witness :
    pstr "   " ≠ [] ∧ (pstr "   ").length ≤ 127
    ∧ BaseLLMProvider.parse_structured_response
        (some (.obj [("title", .str (pstr "   "))])) = some (.str (pstr "   ")) :=
  ⟨by decide, by decide,
   C2_short_title_unchanged [("title", .str (pstr "   "))] (pstr "   ")
     rfl (by decide) (by decide)⟩

/-- C3 counterexample: a wrong-typed `title` that is a non-empty JSON
array is not rejected — the normalizer returns the array itself, so
the claim that every wrong-typed title yields no title is false. -/
theorem C3_nonstring_title_counterexample :
    BaseLLMProvider.parse_structured_response
        (some (.obj [("title", .arr [.str (pstr "x")])]))
      = some (.arr [.str (pstr "x")])
    ∧ BaseLLMProvider.parse_structured_response
        (some (.obj [("title", .arr [.str (pstr "x")])])) ≠ none :=
  ⟨rfl, fun h => Option.noConfusion h⟩

/-- C3 amended: the normalizer never raises (it is a total function
into `Option`), and it returns no title when the input is not valid
JSON, when the decoded value is not an object, when the `title` field
is absent, and when the `title` value is `null`, a boolean, a number,
an empty string, or an empty container; a non-empty array or object
title is instead returned as-is (see the counterexample). -/
theorem C3_invalid_input_no_title :
    BaseLLMProvider.parse_structured_response none = none
    ∧ (∀ j : JValue, j.isObj = false →
        BaseLLMProvider.parse_structured_response (some j) = none)
    ∧ (∀ fields : List (String × JValue), fields.lookup "title" = none →
        BaseLLMProvider.parse_structured_response (some (.obj fields)) = none)
    ∧ (∀ (fields : List (String × JValue)) (t : JValue),
        fields.lookup "title" = some t → titleRejected t = true →
        BaseLLMProvider.parse_structured_response (some (.obj fields)) = none) := by
  refine ⟨rfl, ?_, ?_, ?_⟩
  · intro j hj
    cases j <;> first
      | rfl
      | exact absurd hj (by simp [JValue.isObj])
  · intro fields hlook
    simp [BaseLLMProvider.parse_structured_response, dictGet, hlook, JValue.truthy]
  · intro fields t hlook hrej
    cases t <;>
      simp_all [BaseLLMProvider.parse_structured_response, dictGet, titleRejected,
        JValue.truthy, JValue.pyLen]

/-- Witness for C3 amended: a null title and a missing title both
yield no title. -/
theorem C3_invalid_input_no_title_witness :
    ([] : List (String × JValue)).lookup "title" = none
    ∧ BaseLLMProvider.parse_structured_response (some (.obj [])) = none
    ∧ [("title", JValue.null)].lookup "title" = some JValue.null
    ∧ titleRejected JValue.null = true
    ∧ BaseLLMProvider.parse_structured_response
        (some (.obj [("title", JValue.null)])) = none :=
  ⟨rfl, C3_invalid_input_no_title.2.2.1 [] rfl, rfl, rfl,
   C3_invalid_input_no_title.2.2.2 [("title", JValue.null)] JValue.null rfl rfl⟩

/-- C6: evaluating the factory at its Ollama branch.  With a non-empty
base URL and any credential, `create_provider("ollama", ...)` reaches
`provider_class(base_url, api_key, settings_file)` — a call with three
positional arguments to `OllamaTitles.__init__`, which accepts only
`(ollama_base_url, settings_file)` — so Python raises `TypeError` and
no provider instance is ever produced, contradicting the claim (and
the repository's own tests in
src/tests/integration/test_ollama_api_key.py, which require an
`api_key` parameter with bearer-header behaviour). -/
theorem C6_ollama_factory_type_error :
    LLMFactory.create_provider "ollama" none (some "http://localhost:11434")
        (some "test-api-key") "settings.yaml"
      = .error ollamaConstructorTypeError
    ∧ LLMFactory.create_provider "ollama" none (some "http://localhost:11434")
        none "settings.yaml"
      = .error ollamaConstructorTypeError :=
  ⟨rfl, rfl⟩

/-- C7 counterexample: the Ollama variant consults no flat legacy key,
so with settings `{"ollama_model": "custom"}` the resolved model is
the hardcoded default, not `"custom"` as the claimed three-tier
fallback requires. -/
theorem C7_ollama_flat_key_counterexample :
    OllamaTitles.resolveModel [("ollama_model", .str (pstr "custom"))]
      = .str (pstr "gpt-oss:latest")
    ∧ OllamaTitles.resolveModel [("ollama_model", .str (pstr "custom"))]
      ≠ .str (pstr "custom") := by
  refine ⟨rfl, fun h => ?_⟩
  have h2 : JValue.str (pstr "gpt-oss:latest") = .str (pstr "custom") := h
  injection h2 with h3
  exact absurd h3 (by decide)

/-- C7 amended: the OpenAI and Claude variants use two tiers plus a
default — the nested sub-object's `model` (or the default when that
sub-object lacks `model`) whenever the sub-object is a dict, and the
flat legacy key (or the default) only when it is not — while the
Ollama variant has no flat legacy tier at all: nested `model` when the
`ollama` sub-object is a dict, else directly the hardcoded default. -/
theorem C7_model_resolution (kvs okvs : List (String × JValue)) :
    (kvs.lookup "openai" = some (.obj okvs) →
      OpenAITitles.resolveModel kvs = dictGet okvs "model" (.str (pstr "gpt-4o-mini")))
    ∧ (isObjOpt (kvs.lookup "openai") = false →
      OpenAITitles.resolveModel kvs = dictGet kvs "openai_model" (.str (pstr "gpt-4o-mini")))
    ∧ (kvs.lookup "ollama" = some (.obj okvs) →
      OllamaTitles.resolveModel kvs = dictGet okvs "model" (.str (pstr "gpt-oss:latest")))
    ∧ (isObjOpt (kvs.lookup "ollama") = false →
      OllamaTitles.resolveModel kvs = .str (pstr "gpt-oss:latest"))
    ∧ (kvs.lookup "claude" = some (.obj okvs) →
      ClaudeTitles.resolveModel kvs
        = dictGet okvs "model" (.str (pstr "claude-3-5-sonnet-20241022")))
    ∧ (isObjOpt (kvs.lookup "claude") = false →
      ClaudeTitles.resolveModel kvs
        = dictGet kvs "claude_model" (.str (pstr "claude-3-5-sonnet-20241022"))) := by
  refine ⟨?_, ?_, ?_, ?_, ?_, ?_⟩
  · intro h; simp [OpenAITitles.resolveModel, h]
  · intro h
    cases hl : kvs.lookup "openai" with
    | none => simp [OpenAITitles.resolveModel, hl]
    | some j =>
      rw [hl] at h
      cases j <;> simp_all [OpenAITitles.resolveModel, isObjOpt]
  · intro h; simp [OllamaTitles.resolveModel, h]
  · intro h
    cases hl : kvs.lookup "ollama" with
    | none => simp [OllamaTitles.resolveModel, hl]
    | some j =>
      rw [hl] at h
      cases j <;> simp_all [OllamaTitles.resolveModel, isObjOpt]
  · intro h; simp [ClaudeTitles.resolveModel, h]
  · intro h
    cases hl : kvs.lookup "claude" with
    | none => simp [ClaudeTitles.resolveModel, hl]
    | some j =>
      rw [hl] at h
      cases j <;> simp_all [ClaudeTitles.resolveModel, isObjOpt]

/-- Witness for C7 amended: nested key wins for OpenAI, and the Ollama
default applies when the `ollama` sub-object is absent. -/
theorem C7_model_resolution_witness :
    [("openai", JValue.obj [("model", JValue.str (pstr "gpt-4o"))])].lookup "openai"
        = some (.obj [("model", JValue.str (pstr "gpt-4o"))])
    ∧ OpenAITitles.resolveModel [("openai", JValue.obj [("model", JValue.str (pstr "gpt-4o"))])]
        = dictGet [("model", JValue.str (pstr "gpt-4o"))] "model" (.str (pstr "gpt-4o-mini"))
    ∧ isObjOpt ([("ollama_model", JValue.str (pstr "custom"))].lookup "ollama") = false
    ∧ OllamaTitles.resolveModel [("ollama_model", JValue.str (pstr "custom"))]
        = .str (pstr "gpt-oss:latest") :=
  ⟨rfl,
   (C7_model_resolution [("openai", JValue.obj [("model", JValue.str (pstr "gpt-4o"))])]
     [("model", JValue.str (pstr "gpt-4o"))]).1 rfl,
   rfl,
   (C7_model_resolution [("ollama_model", JValue.str (pstr "custom"))] []).2.2.2.1 rfl⟩

/-- C8: evaluating the orchestrator at a fetched document whose
`content` is the empty string.  The provider IS invoked (`llmCalled =
true`) — there is no empty-content guard in
`generate_and_update_title` — and when the provider returns a title a
PATCH is issued as well, contradicting the claim (and the behaviour of
the standalone sibling src/ngx-renamer-standalone.py, which stops on
empty content as the specification describes). -/
theorem C8_empty_content_still_calls_llm :
    PaperlessAITitles.generate_and_update_title
        (.resp 200 (.obj [("id", .num 123), ("title", .str (pstr "Untitled")),
          ("content", .str [])]))
        genFixed (.resp 200 .null)
      = .ok ⟨true, true⟩
    ∧ PaperlessAITitles.generate_and_update_title
        (.resp 200 (.obj [("id", .num 123), ("title", .str (pstr "Untitled")),
          ("content", .str [])]))
        genNone (.resp 200 .null)
      = .ok ⟨true, false⟩ :=
  ⟨rfl, rfl⟩

/-- C9 counterexample: a network error raised by `requests.get` is not
caught anywhere in `generate_and_update_title`, so an exception
escapes the orchestrator boundary, contradicting the claim that no
collaborator outcome makes it raise. -/
theorem C9_network_error_escapes :
    PaperlessAITitles.generate_and_update_title
        (.exn (pstr "requests.exceptions.ConnectionError")) genNone (.resp 200 .null)
      = .error (pstr "requests.exceptions.ConnectionError") :=
  rfl

/-- C9 amended: every per-document failure surfaced as a value — a
fetch answered with a non-success status (in particular 404: no LLM
call, no PATCH), a provider returning no title, or an update answered
with any status — is terminal for the run and raises no exception;
only a transport-level exception raised by the HTTP library itself
propagates (see the counterexample). -/
theorem C9_status_failures_terminal_no_raise :
    (∀ (status : Nat) (body : JValue) (gen : JValue → Option (List Char))
        (patch : HttpOutcome), status ≠ 200 →
      PaperlessAITitles.generate_and_update_title (.resp status body) gen patch
        = .ok ⟨false, false⟩)
    ∧ (∀ (fields : List (String × JValue)) (v : JValue)
        (gen : JValue → Option (List Char)) (patch : HttpOutcome),
        fields.lookup "title" = some v →
        gen (dictGet fields "content" (.str [])) = none →
      PaperlessAITitles.generate_and_update_title (.resp 200 (.obj fields)) gen patch
        = .ok ⟨true, false⟩)
    ∧ (∀ (fields : List (String × JValue)) (v : JValue)
        (gen : JValue → Option (List Char)) (t : List Char) (st : Nat) (b : JValue),
        fields.lookup "title" = some v →
        gen (dictGet fields "content" (.str [])) = some t → t ≠ [] →
      PaperlessAITitles.generate_and_update_title (.resp 200 (.obj fields)) gen (.resp st b)
        = .ok ⟨true, true⟩) := by
  refine ⟨?_, ?_, ?_⟩
  · intro status body gen patch h
    simp [PaperlessAITitles.generate_and_update_title,
      PaperlessAITitles.get_document_details, h]
  · intro fields v gen patch hlook hgen
    have hemp : fields.isEmpty = false := by
      cases fields with
      | nil => simp at hlook
      | cons a as => rfl
    simp [PaperlessAITitles.generate_and_update_title,
      PaperlessAITitles.get_document_details, JValue.truthy, hemp, hlook, hgen]
  · intro fields v gen t st b hlook hgen hne
    have hemp : fields.isEmpty = false := by
      cases fields with
      | nil => simp at hlook
      | cons a as => rfl
    have htemp : t.isEmpty = false := by
      cases t with
      | nil => exact absurd rfl hne
      | cons a as => rfl
    simp [PaperlessAITitles.generate_and_update_title,
      PaperlessAITitles.get_document_details, JValue.truthy, hemp, hlook, hgen, htemp]

/-- Witness for C9 amended: a 404 fetch causes no LLM call, no PATCH
and no exception; a provider failure after a successful fetch is
terminal; a 500 PATCH answer does not raise. -/
theorem C9_status_failures_terminal_no_raise_witness :
    (404 ≠ 200
      ∧ PaperlessAITitles.generate_and_update_title
          (.resp 404 (.obj [("detail", .str (pstr "Not found."))])) genNone (.resp 200 .null)
        = .ok ⟨false, false⟩)
    ∧ ([("title", JValue.str (pstr "Old")), ("content", JValue.str (pstr "body"))].lookup "title"
          = some (.str (pstr "Old"))
      ∧ genNone (dictGet [("title", JValue.str (pstr "Old")),
          ("content", JValue.str (pstr "body"))] "content" (.str [])) = none
      ∧ PaperlessAITitles.generate_and_update_title
          (.resp 200 (.obj [("title", JValue.str (pstr "Old")),
            ("content", JValue.str (pstr "body"))])) genNone (.resp 200 .null)
        = .ok ⟨true, false⟩)
    ∧ PaperlessAITitles.generate_and_update_title
        (.resp 200 (.obj [("title", JValue.str (pstr "Old")),
          ("content", JValue.str (pstr "body"))])) genFixed (.resp 500 .null)
      = .ok ⟨true, true⟩ :=
  ⟨⟨by decide,
    C9_status_failures_terminal_no_raise.1 404 (.obj [("detail", .str (pstr "Not found."))])
      genNone (.resp 200 .null) (by decide)⟩,
   ⟨rfl, rfl,
    C9_status_failures_terminal_no_raise.2.1
      [("title", JValue.str (pstr "Old")), ("content", JValue.str (pstr "body"))]
      (.str (pstr "Old")) genNone (.resp 200 .null) rfl rfl⟩,
   C9_status_failures_terminal_no_raise.2.2
     [("title", JValue.str (pstr "Old")), ("content", JValue.str (pstr "body"))]
     (.str (pstr "Old")) genFixed (pstr "Amazon - AWS Monthly Invoice") 500 .null
     rfl rfl (by decide)⟩

theorem containsSub_append_of_right (pat a b : List Char)
    (h : containsSub pat b = true) : containsSub pat (a ++ b) = true := by
  rw [containsSub_iff_occurs] at h ⊢
  exact occurs_append_of_right pat a b h

/-- C5: the factory matches provider names case-insensitively (its
result depends only on the lowercased name); an unregistered name
yields an error whose message names every registered provider; a
selected provider with a falsy required credential (OpenAI without its
API key, Ollama without its base URL) yields an error naming the
missing credential and containing the word `required`. -/
theorem C5_factory_errors :
    (∀ (n1 n2 : String) (k u a : Option String) (f : String),
        pyLower n1 = pyLower n2 →
      LLMFactory.create_provider n1 k u a f = LLMFactory.create_provider n2 k u a f)
    ∧ (∀ (name : String) (k u a : Option String) (f : String),
        PROVIDER_REGISTRY.lookup (pyLower name) = none →
        ∃ msg, LLMFactory.create_provider name k u a f = .error msg
          ∧ containsSub (pstr "ollama") msg = true
          ∧ containsSub (pstr "openai") msg = true)
    ∧ (∀ (name : String) (k u a : Option String) (f : String),
        pyLower name = "openai" → optStrTruthy k = false →
        ∃ msg, LLMFactory.create_provider name k u a f = .error msg
          ∧ containsSub (pstr "OPENAI_API_KEY") msg = true
          ∧ containsSub (pstr "required") msg = true)
    ∧ (∀ (name : String) (k u a : Option String) (f : String),
        pyLower name = "ollama" → optStrTruthy u = false →
        ∃ msg, LLMFactory.create_provider name k u a f = .error msg
          ∧ containsSub (pstr "OLLAMA_BASE_URL") msg = true
          ∧ containsSub (pstr "required") msg = true) := by
  refine ⟨?_, ?_, ?_, ?_⟩
  · intro n1 n2 k u a f h
    simp only [LLMFactory.create_provider, h]
  · intro name k u a f h
    refine ⟨pstr ("Unknown LLM provider \x27" ++ pyLower name ++ "\x27. "
      ++ "Available providers: "
      ++ joinComma (sortStrings (PROVIDER_REGISTRY.map Prod.fst))), ?_, ?_, ?_⟩
    · simp only [LLMFactory.create_provider, get_provider_class, pyLower_idem, h]
    · simp only [pstr, String.data_append]
      exact containsSub_append_of_right _ _ _ (by decide)
    · simp only [pstr, String.data_append]
      exact containsSub_append_of_right _ _ _ (by decide)
  · intro name k u a f hlow hk
    refine ⟨pstr ("OPENAI_API_KEY environment variable is required when using "
      ++ "OpenAI provider. Either set OPENAI_API_KEY or change "
      ++ "llm_provider to \x27ollama\x27 in settings.yaml"), ?_, by decide, by decide⟩
    simp only [LLMFactory.create_provider, get_provider_class, pyLower_idem, hlow, hk]
    rfl
  · intro name k u a f hlow hu
    refine ⟨pstr ("OLLAMA_BASE_URL environment variable is required when using "
      ++ "Ollama provider. Either set OLLAMA_BASE_URL or change "
      ++ "llm_provider to \x27openai\x27 in settings.yaml"), ?_, by decide, by decide⟩
    simp only [LLMFactory.create_provider, get_provider_class, pyLower_idem, hlow, hu]
    rfl

/-- Witness for C5 at concrete names and credentials. -/
theorem C5_factory_errors_witness :
    (pyLower "OpenAI" = pyLower "openai"
      ∧ LLMFactory.create_provider "OpenAI" (some "sk-test") none none "settings.yaml"
          = LLMFactory.create_provider "openai" (some "sk-test") none none "settings.yaml")
    ∧ (PROVIDER_REGISTRY.lookup (pyLower "claude") = none
      ∧ ∃ msg, LLMFactory.create_provider "claude" (some "sk") none none "settings.yaml"
            = .error msg
          ∧ containsSub (pstr "ollama") msg = true
          ∧ containsSub (pstr "openai") msg = true)
    ∧ (pyLower "OPENAI" = "openai" ∧ optStrTruthy none = false
      ∧ ∃ msg, LLMFactory.create_provider "OPENAI" none (some "http://x") none "settings.yaml"
            = .error msg
          ∧ containsSub (pstr "OPENAI_API_KEY") msg = true
          ∧ containsSub (pstr "required") msg = true)
    ∧ (pyLower "ollama" = "ollama" ∧ optStrTruthy (some "") = false
      ∧ ∃ msg, LLMFactory.create_provider "ollama" (some "sk") (some "") none "settings.yaml"
            = .error msg
          ∧ containsSub (pstr "OLLAMA_BASE_URL") msg = true
          ∧ containsSub (pstr "required") msg = true) :=
  ⟨⟨by decide,
    C5_factory_errors.1 "OpenAI" "openai" (some "sk-test") none none "settings.yaml"
      (by decide)⟩,
   ⟨by decide,
    C5_factory_errors.2.1 "claude" (some "sk") none none "settings.yaml" (by decide)⟩,
   ⟨by decide, rfl,
    C5_factory_errors.2.2.1 "OPENAI" none (some "http://x") none "settings.yaml"
      (by decide) rfl⟩,
   ⟨by decide, rfl,
    C5_factory_errors.2.2.2 "ollama" (some "sk") (some "") none "settings.yaml"
      (by decide) rfl⟩⟩

/-- C4 counterexample: a settings mapping containing a `prompt` block
that is an empty mapping falsifies the claim — the claimed
concatenation would be `"" ++ "" ++ "" ++ text ++ "" = text`, but the
code's `if not setting_prompt:` guard returns no prompt. -/
theorem C4_empty_prompt_block_counterexample :
    BaseLLMProvider.build_prompt (some (.obj [("prompt", .obj [])]))
        (pstr "2025-10-12") (pstr "T")
      = .ok none
    ∧ BaseLLMProvider.build_prompt (some (.obj [("prompt", .obj [])]))
        (pstr "2025-10-12") (pstr "T")
      ≠ .ok (some (pstr "T")) := by
  refine ⟨rfl, fun h => ?_⟩
  have h2 : (Except.ok none : Except Unit (Option (List Char)))
      = .ok (some (pstr "T")) := h
  injection h2 with h3
  exact Option.noConfusion h3

/-- C4 amended: for every settings mapping containing a non-empty
`prompt` block whose used fields are strings (absent fields default to
`""`), `build_prompt` returns exactly
`main ++ (with_date-template with every occurrence of the literal
`{current_date}` replaced by the formatted date, when `with_date` is
truthy; else no_date) ++ pre_content ++ text ++ post_content`; it
returns no prompt when the settings are absent or the `prompt` block
is absent; and the substituted date segment contains the formatted
`YYYY-MM-DD` date and never the literal placeholder token whenever the
template contained the token (the full prompt can still contain the
token if another component, e.g. the document text, supplies one). -/
theorem C4_build_prompt (y m d : Nat) (kvs pkvs : List (String × JValue))
    (text mainS wdS ndS preS postS : List Char)
    (hprompt : kvs.lookup "prompt" = some (.obj pkvs))
    (hpk : pkvs ≠ [])
    (hmain : dictGet pkvs "main" (.str []) = .str mainS)
    (hwd : dictGet pkvs "with_date" (.str []) = .str wdS)
    (hnd : dictGet pkvs "no_date" (.str []) = .str ndS)
    (hpre : dictGet pkvs "pre_content" (.str []) = .str preS)
    (hpost : dictGet pkvs "post_content" (.str []) = .str postS) :
    BaseLLMProvider.build_prompt (some (.obj kvs)) (formatDate y m d) text
      = .ok (some (mainS
          ++ (if (dictGet kvs "with_date" (.bool false)).truthy
              then replaceAll currentDatePlaceholder (formatDate y m d) wdS
              else ndS)
          ++ preS ++ text ++ postS))
    ∧ BaseLLMProvider.build_prompt none (formatDate y m d) text = .ok none
    ∧ (∀ kvs2 : List (String × JValue), kvs2.lookup "prompt" = none →
        BaseLLMProvider.build_prompt (some (.obj kvs2)) (formatDate y m d) text
          = .ok none)
    ∧ (containsSub currentDatePlaceholder wdS = true →
        containsSub (formatDate y m d)
            (replaceAll currentDatePlaceholder (formatDate y m d) wdS) = true
        ∧ containsSub currentDatePlaceholder
            (replaceAll currentDatePlaceholder (formatDate y m d) wdS) = false) := by
  have hkne : kvs.isEmpty = false := by
    cases kvs with
    | nil => simp at hprompt
    | cons a as => rfl
  have hpne : pkvs.isEmpty = false := by
    cases pkvs with
    | nil => exact absurd rfl hpk
    | cons a as => rfl
  have hpr : dictGet kvs "prompt" JValue.null = .obj pkvs := by
    simp [dictGet, hprompt]
  have htk : (JValue.obj kvs).truthy = true := by simp [JValue.truthy, hkne]
  have htp : (JValue.obj pkvs).truthy = true := by simp [JValue.truthy, hpne]
  refine ⟨?_, rfl, ?_, ?_⟩
  · cases hw : (dictGet kvs "with_date" (.bool false)).truthy with
    | true =>
      simp only [BaseLLMProvider.build_prompt, htk, if_true, hpr, htp,
        hmain, hwd, hnd, hpre, hpost, asStr, hw]
    | false =>
      simp only [BaseLLMProvider.build_prompt, htk, if_true, hpr, htp,
        hmain, hwd, hnd, hpre, hpost, asStr, hw, Bool.false_eq_true, if_false]
  · intro kvs2 hlook2
    cases hke : kvs2.isEmpty with
    | true => simp [BaseLLMProvider.build_prompt, JValue.truthy, hke]
    | false =>
      simp [BaseLLMProvider.build_prompt, JValue.truthy, hke, dictGet, hlook2]
  · intro hwdocc
    constructor
    · rw [containsSub_iff_occurs]
      exact replaceAll_occurs_rep currentDatePlaceholder (formatDate y m d)
        (by decide) wdS ((containsSub_iff_occurs _ _).mp hwdocc)
    · rw [Bool.eq_false_iff]
      intro hcon
      exact replaceAll_not_occurs currentDatePlaceholder (formatDate y m d)
        (by decide) (formatDate_ne_nil y m d) (formatDate_disjoint_placeholder y m d)
        wdS ((containsSub_iff_occurs _ _).mp hcon)

/-- Witness for C4 amended at a concrete date (2025-10-12), a
template containing the placeholder, and `with_date` true. -/
theorem C4_build_prompt_witness :
    ([("with_date", JValue.bool true),
      ("prompt", JValue.obj [("main", JValue.str (pstr "M ")),
        ("with_date", JValue.str (pstr "Use {current_date} today. ")),
        ("no_date", JValue.str (pstr "N ")),
        ("pre_content", JValue.str (pstr "Pre: ")),
        ("post_content", JValue.str (pstr " Post"))])]).lookup "prompt"
      = some (.obj [("main", JValue.str (pstr "M ")),
        ("with_date", JValue.str (pstr "Use {current_date} today. ")),
        ("no_date", JValue.str (pstr "N ")),
        ("pre_content", JValue.str (pstr "Pre: ")),
        ("post_content", JValue.str (pstr " Post"))])
    ∧ containsSub currentDatePlaceholder (pstr "Use {current_date} today. ") = true
    ∧ (BaseLLMProvider.build_prompt
        (some (.obj [("with_date", JValue.bool true),
          ("prompt", JValue.obj [("main", JValue.str (pstr "M ")),
            ("with_date", JValue.str (pstr "Use {current_date} today. ")),
            ("no_date", JValue.str (pstr "N ")),
            ("pre_content", JValue.str (pstr "Pre: ")),
            ("post_content", JValue.str (pstr " Post"))])]))
        (formatDate 2025 10 12) (pstr "doc")
      = .ok (some (pstr "M "
          ++ (if (dictGet [("with_date", JValue.bool true),
                ("prompt", JValue.obj [("main", JValue.str (pstr "M ")),
                  ("with_date", JValue.str (pstr "Use {current_date} today. ")),
                  ("no_date", JValue.str (pstr "N ")),
                  ("pre_content", JValue.str (pstr "Pre: ")),
                  ("post_content", JValue.str (pstr " Post"))])]
                "with_date" (.bool false)).truthy
              then replaceAll currentDatePlaceholder (formatDate 2025 10 12)
                (pstr "Use {current_date} today. ")
              else pstr "N ")
          ++ pstr "Pre: " ++ pstr "doc" ++ pstr " Post"))
      ∧ BaseLLMProvider.build_prompt none (formatDate 2025 10 12) (pstr "doc") = .ok none
      ∧ (∀ kvs2 : List (String × JValue), kvs2.lookup "prompt" = none →
          BaseLLMProvider.build_prompt (some (.obj kvs2)) (formatDate 2025 10 12)
            (pstr "doc") = .ok none)
      ∧ (containsSub currentDatePlaceholder (pstr "Use {current_date} today. ") = true →
          containsSub (formatDate 2025 10 12)
              (replaceAll currentDatePlaceholder (formatDate 2025 10 12)
                (pstr "Use {current_date} today. ")) = true
          ∧ containsSub currentDatePlaceholder
              (replaceAll currentDatePlaceholder (formatDate 2025 10 12)
                (pstr "Use {current_date} today. ")) = false)) :=
  ⟨rfl, by decide,
   C4_build_prompt 2025 10 12
     [("with_date", JValue.bool true),
      ("prompt", JValue.obj [("main", JValue.str (pstr "M ")),
        ("with_date", JValue.str (pstr "Use {current_date} today. ")),
        ("no_date", JValue.str (pstr "N ")),
        ("pre_content", JValue.str (pstr "Pre: ")),
        ("post_content", JValue.str (pstr " Post"))])]
     [("main", JValue.str (pstr "M ")),
      ("with_date", JValue.str (pstr "Use {current_date} today. ")),
      ("no_date", JValue.str (pstr "N ")),
      ("pre_content", JValue.str (pstr "Pre: ")),
      ("post_content", JValue.str (pstr " Post"))]
     (pstr "doc") (pstr "M ") (pstr "Use {current_date} today. ") (pstr "N ")
     (pstr "Pre: ") (pstr " Post")
     rfl (List.cons_ne_nil _ _) rfl rfl rfl rfl rfl⟩

/-- C10: an empty-but-present configuration is treated as absent —
`build_prompt` fails for absent settings, for settings that load to an
empty mapping, and for a present `prompt` block that is falsy (an
empty mapping or any other falsy value), and in the latter two cases
title generation returns no title without contacting the remote
API. -/
theorem C10_empty_config_fails :
    (∀ today text, BaseLLMProvider.build_prompt none today text = .ok none)
    ∧ (∀ today text,
        BaseLLMProvider.build_prompt (some (.obj [])) today text = .ok none)
    ∧ (∀ (kvs : List (String × JValue)) (p : JValue) (today text : List Char),
        kvs.lookup "prompt" = some p → p.truthy = false →
        BaseLLMProvider.build_prompt (some (.obj kvs)) today text = .ok none)
    ∧ (∀ (today text : List Char) (api : List Char → Option (Option JValue)),
        OpenAITitles.generate_title_from_text (some (.obj [])) today text api
          = .ok (none, false))
    ∧ (∀ (kvs : List (String × JValue)) (p : JValue) (today text : List Char)
        (api : List Char → Option (Option JValue)),
        kvs.lookup "prompt" = some p → p.truthy = false →
        OpenAITitles.generate_title_from_text (some (.obj kvs)) today text api
          = .ok (none, false)) := by
  have h1 : ∀ today text,
      BaseLLMProvider.build_prompt (some (.obj [])) today text = .ok none :=
    fun _ _ => rfl
  have h2 : ∀ (kvs : List (String × JValue)) (p : JValue) (today text : List Char),
      kvs.lookup "prompt" = some p → p.truthy = false →
      BaseLLMProvider.build_prompt (some (.obj kvs)) today text = .ok none := by
    intro kvs p today text hlook hp
    have hkne : kvs.isEmpty = false := by
      cases kvs with
      | nil => simp at hlook
      | cons a as => rfl
    have hpr : dictGet kvs "prompt" JValue.null = p := by simp [dictGet, hlook]
    have htk : (JValue.obj kvs).truthy = true := by simp [JValue.truthy, hkne]
    simp only [BaseLLMProvider.build_prompt, htk, if_true, hpr, hp,
      Bool.false_eq_true, if_false]
  refine ⟨fun _ _ => rfl, h1, h2, ?_, ?_⟩
  · intro today text api
    simp only [OpenAITitles.generate_title_from_text, h1 today text]
  · intro kvs p today text api hlook hp
    simp only [OpenAITitles.generate_title_from_text, h2 kvs p today text hlook hp]

/-- Witness for C10 at an empty `prompt` block. -/
theorem C10_empty_config_fails_witness :
    [("prompt", JValue.obj [])].lookup "prompt" = some (.obj [])
    ∧ (JValue.obj []).truthy = false
    ∧ BaseLLMProvider.build_prompt (some (.obj [("prompt", JValue.obj [])]))
        (pstr "2025-10-12") (pstr "T") = .ok none
    ∧ OpenAITitles.generate_title_from_text (some (.obj [("prompt", JValue.obj [])]))
        (pstr "2025-10-12") (pstr "T") (fun _ => some (some (.obj []))) = .ok (none, false) :=
  ⟨rfl, rfl,
   C10_empty_config_fails.2.2.1 [("prompt", JValue.obj [])] (.obj [])
     (pstr "2025-10-12") (pstr "T") rfl rfl,
   C10_empty_config_fails.2.2.2.2 [("prompt", JValue.obj [])] (.obj [])
     (pstr "2025-10-12") (pstr "T") (fun _ => some (some (.obj []))) rfl rfl⟩
